import Mathlib

set_option linter.unusedVariables false

/-
  Verification development for the MathItem lifecycle core
  (mathjax3-ts/core/MathItem.ts) and the TexError message class.

  Shallow embedding conventions:
  * TS `number` fields are modelled as `Int` (state values, which are the
    small naturals 0..3 of the STATE table, as `Nat`).
  * A TS value that can be `null`/unset is an `Option`.
  * The open-ended TS dictionaries (`OptionList`, the opaque `BBox`) are
    association lists; the only facts used about them is which container a
    field holds and when it is reset to a fresh empty one.
  * The external collaborator types (the input jax handle, the compiled
    `MmlNode` tree, the DOM `Element`, the `MathDocument`) are opaque type
    parameters `J N E D`; the collaborator *methods* (`inputJax.compile`,
    `document.outputJax.typeset` / `.escaped`) are passed as function
    arguments, and fallible ones return `Except`.
  * TS methods mutate `this`; here each method takes the item and returns
    the updated item.  A method that can throw returns the item paired
    with an `Option` error: the item component carries exactly the
    mutations performed before the throw.
-/

/-- TS `Location`: a position in a document.  All fields are optional.
DOM nodes are opaque to this core, so the `node` field is modelled with a
unit payload (present or absent). -/
structure Location where
  i : Option Int
  n : Option Int
  delim : Option String
  node : Option Unit
deriving DecidableEq, Repr

/-- TS `Metrics`: the data needed to typeset a MathItem. -/
structure Metrics where
  em : Int
  ex : Int
  containerWidth : Int
  lineWidth : Int
  scale : Int
deriving DecidableEq, Repr

/-- TS `OptionList` (an open-ended string-keyed dictionary), modelled as an
association list; only emptiness and preservation matter to the claims. -/
abbrev OptionList := List (String × String)

/-- TS `BBox` ("will be defined later", created as the empty object `{}`),
modelled like `OptionList`. -/
abbrev BBox := List (String × String)

/-- TS `ProtoItem`: a provisional match produced by the scanner.  The
optional fields `open`, `close`, `n` are `Option`s; `display` is
boolean-or-null. -/
structure ProtoItem where
  math : String
  start : Location
  «end» : Location
  «open» : Option String
  close : Option String
  n : Option Int
  display : Option Bool
deriving DecidableEq, Repr

/-- TS `protoItem(open, math, close, n, start, end, display = null)`.
The `display` parameter's TS default is `null`, i.e. an omitted argument
is `none` here; offsets are stored untouched as `start = {n: start}` and
`end = {n: end}`. -/
def protoItem (o math close : String) (n start «end» : Int)
    (display : Option Bool) : ProtoItem :=
  { math := math
    start := { i := none, n := some start, delim := none, node := none }
    «end» := { i := none, n := some «end», delim := none, node := none }
    «open» := some o
    close := some close
    n := some n
    display := display }

/-- TS `AbstractMathItem.STATE.UNPROCESSED`. -/
def STATE.UNPROCESSED : Nat := 0

/-- TS `AbstractMathItem.STATE.COMPILED`. -/
def STATE.COMPILED : Nat := 1

/-- TS `AbstractMathItem.STATE.TYPESET`. -/
def STATE.TYPESET : Nat := 2

/-- TS `AbstractMathItem.STATE.INSERTED`. -/
def STATE.INSERTED : Nat := 3

/-- The `AbstractMathItem` class.  `J` is the opaque input-jax handle,
`N` the compiled internal tree type (`MmlNode`), `E` the typeset output
type (`Element`).  `root`/`typesetRoot` start as `null` (`none`);
`metrics` starts as the empty-object cast `{} as Metrics` (`none` here)
until `setMetrics` fills it. -/
structure AbstractMathItem (J N E : Type) where
  math : String
  inputJax : J
  display : Option Bool
  start : Location
  «end» : Location
  root : Option N
  typesetRoot : Option E
  _state : Nat
  metrics : Option Metrics
  bbox : BBox
  inputData : OptionList
  outputData : OptionList
deriving DecidableEq, Repr

variable {J N E D PE RE : Type}

/-- The TS constructor
`constructor(math, jax, display = true, start = {i:0,n:0,delim:''}, end = {i:0,n:0,delim:''})`. -/
def AbstractMathItem.make (math : String) (jax : J) (display : Option Bool)
    (start «end» : Location) : AbstractMathItem J N E :=
  { math := math
    inputJax := jax
    display := display
    start := start
    «end» := «end»
    root := none
    typesetRoot := none
    _state := STATE.UNPROCESSED
    metrics := none
    bbox := []
    inputData := []
    outputData := [] }

/-- TS `AbstractMathItem.removeFromDocument(restore = false) {}`: the base
class provides an empty body (the document work belongs to handler
subclasses). -/
def AbstractMathItem.removeFromDocument (restore : Bool)
    (m : AbstractMathItem J N E) : AbstractMathItem J N E :=
  m

/-- TS `AbstractMathItem.state(state = null, restore = false)`, with the
virtually dispatched `this.removeFromDocument` made explicit as the
parameter `rfd` (the base class passes `AbstractMathItem.removeFromDocument`,
see `AbstractMathItem.state`).  Each guard reads `this._state` as it stands
when the guard runs, exactly as the TS code does. -/
def AbstractMathItem.stateWith
    (rfd : Bool → AbstractMathItem J N E → AbstractMathItem J N E)
    (s : Option Nat) (restore : Bool)
    (m : AbstractMathItem J N E) : AbstractMathItem J N E × Nat :=
  match s with
  | none => (m, m._state)
  | some st =>
    let m1 := if st < STATE.INSERTED ∧ STATE.INSERTED ≤ m._state
              then rfd restore m else m
    let m2 := if st < STATE.TYPESET ∧ STATE.TYPESET ≤ m1._state
              then { m1 with bbox := [], outputData := [] } else m1
    let m3 := if st < STATE.COMPILED ∧ STATE.COMPILED ≤ m2._state
              then { m2 with inputData := [] } else m2
    ({ m3 with _state := st }, st)

/-- The method `state` as it runs on the base class itself, where
`this.removeFromDocument` is the empty-bodied base method. -/
def AbstractMathItem.state (s : Option Nat) (restore : Bool)
    (m : AbstractMathItem J N E) : AbstractMathItem J N E × Nat :=
  AbstractMathItem.stateWith AbstractMathItem.removeFromDocument s restore m

/-- TS `AbstractMathItem.compile(document)`.  `jc` is the collaborator
method `this.inputJax.compile`; it may throw (`Except.error`).  A throw
happens during evaluation of the right-hand side of
`this.root = this.inputJax.compile(this)`, before any assignment, so the
item is returned unchanged alongside the error. -/
def AbstractMathItem.compile (jc : AbstractMathItem J N E → Except PE N)
    (doc : D) (m : AbstractMathItem J N E) :
    AbstractMathItem J N E × Option PE :=
  if (AbstractMathItem.state none false m).2 < STATE.COMPILED then
    match jc m with
    | Except.error e => (m, some e)
    | Except.ok r =>
      ((AbstractMathItem.state (some STATE.COMPILED) false
          { m with root := some r }).1, none)
  else (m, none)

/-- TS `AbstractMathItem.typeset(document)`.  `esc` and `tps` are the
collaborator entry points `document.outputJax.escaped` and
`document.outputJax.typeset`; the TS code selects between them with
`this.display === null ? 'escaped' : 'typeset'` and passes
`(this, document)`. -/
def AbstractMathItem.typeset
    (esc tps : AbstractMathItem J N E → D → Except RE E) (doc : D)
    (m : AbstractMathItem J N E) : AbstractMathItem J N E × Option RE :=
  if (AbstractMathItem.state none false m).2 < STATE.TYPESET then
    match (if m.display = none then esc m doc else tps m doc) with
    | Except.error e => (m, some e)
    | Except.ok v =>
      ((AbstractMathItem.state (some STATE.TYPESET) false
          { m with typesetRoot := some v }).1, none)
  else (m, none)

/-- TS `AbstractMathItem.addEventHandlers() {}` (empty body). -/
def AbstractMathItem.addEventHandlers (m : AbstractMathItem J N E) :
    AbstractMathItem J N E :=
  m

/-- TS `AbstractMathItem.updateDocument(document) {}`: the base class
provides an empty body (the document work belongs to handler subclasses). -/
def AbstractMathItem.updateDocument (doc : D) (m : AbstractMathItem J N E) :
    AbstractMathItem J N E :=
  m

/-- TS `AbstractMathItem.setMetrics(em, ex, cwidth, lwidth, scale)`. -/
def AbstractMathItem.setMetrics (em ex cwidth lwidth scale : Int)
    (m : AbstractMathItem J N E) : AbstractMathItem J N E :=
  { m with metrics := some (Metrics.mk em ex cwidth lwidth scale) }

/-- The spec's `InvalidStateError`: an operation was invoked out of the
required state order. -/
inductive InvalidStateError where
  | invalidState : InvalidStateError
deriving DecidableEq, Repr

/-- Modelled from the spec: `updateDocument` on a concrete (handler)
MathItem subclass, which is not part of the sources here — the base class
only has an empty stub.  Per the spec it "splices `typesetRoot` into the
host document" (external document work, invisible to this embedding),
"Must be called only when state ≥ TYPESET (undefined behavior otherwise —
implementers should fail with `InvalidStateError`). Advances state to
INSERTED on success." -/
def AbstractMathItem.updateDocumentSpec (doc : D)
    (m : AbstractMathItem J N E) :
    Except InvalidStateError (AbstractMathItem J N E) :=
  if STATE.TYPESET ≤ m._state then
    Except.ok (AbstractMathItem.state (some STATE.INSERTED) false m).1
  else
    Except.error InvalidStateError.invalidState

/-- Modelled from the spec: `removeFromDocument(restore)` on a concrete
(handler) MathItem subclass, which is not part of the sources here — the
base class only has an empty stub.  Per the spec it "detaches the typeset
output from the host document" (external document work, invisible to this
embedding) and, if `restore`, re-inserts the original source text; "Must
transition state to below INSERTED as a postcondition" — modelled as a
transition to TYPESET, the largest state below INSERTED. -/
def AbstractMathItem.removeFromDocumentSpec (restore : Bool)
    (m : AbstractMathItem J N E) : AbstractMathItem J N E :=
  (AbstractMathItem.state (some STATE.TYPESET) restore m).1

/-
  TexError (jax/input/TeX/TexError.js as given in the sources).

  The constructor splits the message template with the global regex

    /%(\d+|\{\d+\}|\{[a-z]+:\%\d+(?:\|(?:%\{\d+\}|%.|[^\}])*)+\}|.)/g

  via `String.prototype.split`, which interleaves the text between matches
  with the capture group (the part of each match after the leading `%`).
  The helpers below implement that split directly on character lists:
  `matchAt` is the regex tried at one position (alternatives in the
  pattern's order, JS `.` excluding the four line terminators), `matchTail`
  is the backtracking matcher for `(?:%\x7b\d+\x7d|%.|[^\x7d])*` followed
  by the closing brace inside the plural alternative, and `splitLoop`
  advances one character when the pattern fails at a position.
-/

/-- The test `c >= '0' && c <= '9'` on a single character. -/
def isDigitChar (c : Char) : Bool :=
  '0' ≤ c && c ≤ '9'

/-- The character class `[a-z]`. -/
def isLowerAZ (c : Char) : Bool :=
  'a' ≤ c && c ≤ 'z'

/-- The four characters JS `.` does not match (line terminators). -/
def isLineTerm (c : Char) : Bool :=
  c = '\n' || c = '\r' || c = '\u2028' || c = '\u2029'

/-- JS string `<=` (lexicographic by code unit), used because the TS code
compares the multi-character substring `parts[i].substr(1)` against the
one-character strings `'0'` and `'9'`. -/
def jsLeStr : List Char → List Char → Bool
  | [], _ => true
  | _ :: _, [] => false
  | a :: as, b :: bs => if a < b then true else if b < a then false else jsLeStr as bs

/-- JS `parseInt(s, 10)` restricted to the shapes that occur here: the
leading decimal-digit run, `none` for NaN (no leading digit). -/
def parseDecimal (cs : List Char) : Option Nat :=
  let ds := cs.takeWhile (fun c => isDigitChar c)
  if ds.isEmpty then none
  else some (ds.foldl (fun a c => a * 10 + (c.toNat - Char.toNat '0')) 0)

/-- The lookup `args[k - 1]` followed by the `parts[i] == null → '???'` fixup of the
TS loop: a NaN index, index 0 (JS `args[-1]`) or an out-of-range index all
read `undefined` and end up as `'???'`. -/
def lookupArg (args : List String) (idx : Option Nat) : String :=
  match idx with
  | none => "???"
  | some k => if k = 0 then "???" else (args.get? (k - 1)).getD "???"

/-- Backtracking matcher for `(?:%\x7b\d+\x7d|%.|[^\x7d])*` followed by
the closing `\x7d`, greedy, alternatives in the pattern's order.  Returns
(consumed characters including the closing brace, rest).  The fuel is an
upper bound on the number of tokens; each token consumes at least one
character, so `length + 1` fuel never runs out. -/
def matchTail : Nat → List Char → Option (List Char × List Char)
  | 0, _ => none
  | Nat.succ fuel, cs =>
    (match cs with
     | '%' :: '{' :: r =>
       let ds := r.takeWhile (fun c => isDigitChar c)
       let r2 := r.dropWhile (fun c => isDigitChar c)
       if ds.isEmpty then none
       else
         match r2 with
         | '}' :: r3 =>
           (matchTail fuel r3).map (fun p => ('%' :: '{' :: (ds ++ '}' :: p.1), p.2))
         | _ => none
     | _ => none)
    <|>
    (match cs with
     | '%' :: c :: r =>
       if isLineTerm c then none
       else (matchTail fuel r).map (fun p => ('%' :: c :: p.1, p.2))
     | _ => none)
    <|>
    (match cs with
     | c :: r =>
       if c = '}' then none
       else (matchTail fuel r).map (fun p => (c :: p.1, p.2))
     | _ => none)
    <|>
    (match cs with
     | '}' :: r => some (['}'], r)
     | _ => none)

/-- The error-message pattern tried at one position: on success returns
(the capture group, the rest of the input after the whole match). -/
def matchAt (cs : List Char) : Option (List Char × List Char) :=
  match cs with
  | '%' :: rest =>
    let ds := rest.takeWhile (fun c => isDigitChar c)
    let r1 := rest.dropWhile (fun c => isDigitChar c)
    if !ds.isEmpty then some (ds, r1)
    else
      match rest with
      | '{' :: r2 =>
        (let ds2 := r2.takeWhile (fun c => isDigitChar c)
         let r3 := r2.dropWhile (fun c => isDigitChar c)
         if ds2.isEmpty then none
         else
           match r3 with
           | '}' :: r4 => some ('{' :: (ds2 ++ ['}']), r4)
           | _ => none)
        <|>
        (let ls := r2.takeWhile (fun c => isLowerAZ c)
         let r3 := r2.dropWhile (fun c => isLowerAZ c)
         if ls.isEmpty then none
         else
           match r3 with
           | ':' :: '%' :: r4 =>
             let ds3 := r4.takeWhile (fun c => isDigitChar c)
             let r5 := r4.dropWhile (fun c => isDigitChar c)
             if ds3.isEmpty then none
             else
               match r5 with
               | '|' :: r6 =>
                 (matchTail (r6.length + 1) r6).map
                   (fun p => ('{' :: (ls ++ ':' :: '%' :: (ds3 ++ '|' :: p.1)), p.2))
               | _ => none
           | _ => none)
        <|>
        some (['{'], r2)
      | c :: r2 => if isLineTerm c then none else some ([c], r2)
      | [] => none
  | _ => none

/-- The split `str.split(pattern)` with the global, capturing pattern: pieces of
text between matches interleaved with the captures.  The fuel strictly
exceeds the number of remaining characters throughout. -/
def splitLoop : Nat → List Char → List Char → List String
  | 0, _, acc => [String.mk acc.reverse]
  | Nat.succ fuel, cs, acc =>
    match cs with
    | [] => [String.mk acc.reverse]
    | c :: rest =>
      match matchAt (c :: rest) with
      | some (cap, after) =>
        String.mk acc.reverse :: String.mk cap :: splitLoop fuel after []
      | none => splitLoop fuel rest (c :: acc)

/-- The split `str.split(pattern)` on a `String`. -/
def jsSplit (s : String) : List String :=
  splitLoop (s.data.length + 1) s.data []

/-- The test `parts[i].match(/^\x7b([a-z]+):%(\d+)\|(.*)\x7d$/)` of the
plural branch (JS `.` excludes line terminators; `$` anchors at the very
end of the string). -/
def pluralMatches (cs : List Char) : Bool :=
  match cs with
  | '{' :: r =>
    let ls := r.takeWhile (fun c => isLowerAZ c)
    let r2 := r.dropWhile (fun c => isLowerAZ c)
    if ls.isEmpty then false
    else
      match r2 with
      | ':' :: '%' :: r3 =>
        let ds := r3.takeWhile (fun c => isDigitChar c)
        let r4 := r3.dropWhile (fun c => isDigitChar c)
        if ds.isEmpty then false
        else
          match r4 with
          | '|' :: mid =>
            match mid.reverse with
            | [] => false
            | last :: revInit => last = '}' && revInit.all (fun c => !isLineTerm c)
          | _ => false
      | _ => false
  | _ => false

/-- The loop body applied to `parts[i]` at odd `i` (a capture).  The TS
`typeof parts[i] === 'number'` branches are dead here because `args`
holds strings.  Note the TS code compares the whole substring
`parts[i].substr(1)` against `'0'`/`'9'` as strings, so a `\x7b9...\x7d`
capture falls through to the plural branch. -/
def transformPart (args : List String) (p : String) : String :=
  match p.data with
  | [] => p
  | c :: _ =>
    if isDigitChar c then
      lookupArg args (parseDecimal p.data)
    else if c = '{' then
      let sub := p.data.drop 1
      if jsLeStr ['0'] sub && jsLeStr sub ['9'] then
        lookupArg args (parseDecimal (sub.take (p.data.length - 2)))
      else if pluralMatches p.data then String.mk ('%' :: p.data)
      else p
    else p

/-- The loop `for (let i = 1; i < m; i += 2)`: transform the captures (odd
indices), keep the text pieces (even indices). -/
def mapParts (args : List String) : List String → List String
  | [] => []
  | [t] => [t]
  | t :: cap :: rest => t :: transformPart args cap :: mapParts args rest

/-- The TS `TexError` class: `id` is only assigned when the input has more
than one element, so it is an `Option`. -/
structure TexError where
  id : Option String
  message : String
deriving DecidableEq, Repr

/-- TS static `TexError.processString(str, args)`: split on the message
pattern, substitute the captures, join with `''`. -/
def TexError.processString (str : String) (args : List String) : String :=
  String.join (mapParts args (jsSplit str))

/-- The TS `TexError` constructor: with fewer than two elements it sets
`message = ''` and returns (leaving `id` unassigned); otherwise
`id = input[0]` and `message = processString(input[1], input.slice(2))`. -/
def TexError.make (input : List String) : TexError :=
  match input with
  | a :: b :: rest => { id := some a, message := TexError.processString b rest }
  | _ => { id := none, message := "" }

/-- A sample item sitting at INSERTED with every container non-empty,
used to instantiate theorems at a concrete input. -/
def itemI : AbstractMathItem Unit Unit Unit :=
  { math := "x^2"
    inputJax := ()
    display := some true
    start := Location.mk none (some 0) none none
    «end» := Location.mk none (some 3) none none
    root := some ()
    typesetRoot := some ()
    _state := STATE.INSERTED
    metrics := some (Metrics.mk 16 8 600 600 1)
    bbox := [("h", "1")]
    inputData := [("tex", "x^2")]
    outputData := [("chtml", "span")] }

/-- A freshly constructed sample item (state UNPROCESSED, unresolved
display mode), used to instantiate theorems at a concrete input. -/
def itemU : AbstractMathItem Unit Unit Unit :=
  AbstractMathItem.make "x^2" () none
    (Location.mk (some 0) (some 0) (some "") none)
    (Location.mk (some 0) (some 0) (some "") none)

/-- A sample item sitting at TYPESET, used to instantiate theorems at a
concrete input. -/
def itemT : AbstractMathItem Unit Unit Unit :=
  { itemI with _state := STATE.TYPESET }

/- ------------------------------------------------------------------ -/
/-  Theorems                                                           -/
/- ------------------------------------------------------------------ -/

theorem STATE_UNPROCESSED_val : STATE.UNPROCESSED = 0 := rfl

theorem STATE_COMPILED_val : STATE.COMPILED = 1 := rfl

theorem STATE_TYPESET_val : STATE.TYPESET = 2 := rfl

theorem STATE_INSERTED_val : STATE.INSERTED = 3 := rfl

/-- Reading the state (`state()` with no argument) returns `_state` and
changes nothing. -/
theorem state_none_eq (r : Bool) (m : AbstractMathItem J N E) :
    AbstractMathItem.state none r m = (m, m._state) := rfl

/-- Closed form of a `state(newState, restore)` write on the base class:
each auxiliary container is reset exactly under its guard, `_state`
becomes the new state, and the new state is returned. -/
theorem state_some_closed (n : Nat) (r : Bool) (m : AbstractMathItem J N E) :
    AbstractMathItem.state (some n) r m =
      ({ m with
          bbox := if n < STATE.TYPESET ∧ STATE.TYPESET ≤ m._state then [] else m.bbox,
          outputData := if n < STATE.TYPESET ∧ STATE.TYPESET ≤ m._state then [] else m.outputData,
          inputData := if n < STATE.COMPILED ∧ STATE.COMPILED ≤ m._state then [] else m.inputData,
          _state := n }, n) := by
  simp only [AbstractMathItem.state, AbstractMathItem.stateWith, AbstractMathItem.removeFromDocument]
  rw [ite_self]
  by_cases h2 : n < STATE.TYPESET ∧ STATE.TYPESET ≤ m._state <;>
    by_cases h3 : n < STATE.COMPILED ∧ STATE.COMPILED ≤ m._state <;>
      simp [h2, h3]

/-- Claim C1: a `state(newState, restore)` write performs the cleanup
guards independently and in the fixed order INSERTED-guard (which calls
`removeFromDocument(restore)` first), TYPESET-guard (resetting `bbox` and
`outputData`), COMPILED-guard (resetting `inputData`); afterwards the
internal state field is set to `newState` unconditionally and returned;
a forward move fires no guard and clears nothing, and setting a state
equal to the current state is a no-op.  `stateWith` exposes the
virtually dispatched `removeFromDocument` as `rfd`; conjuncts 3 and 4 say
the INSERTED-guard applies `rfd` first exactly under its condition, and
the remaining conjuncts characterise each guard independently. -/
theorem state_guard_order (J N E : Type)
    (rfd : Bool → AbstractMathItem J N E → AbstractMathItem J N E)
    (n : Nat) (r : Bool) (m : AbstractMathItem J N E) :
    ((AbstractMathItem.stateWith rfd (some n) r m).2 = n) ∧
    ((AbstractMathItem.stateWith rfd (some n) r m).1._state = n) ∧
    (n < STATE.INSERTED → STATE.INSERTED ≤ m._state →
      AbstractMathItem.stateWith rfd (some n) r m =
        AbstractMathItem.stateWith (fun _ x => x) (some n) r (rfd r m)) ∧
    (¬ (n < STATE.INSERTED ∧ STATE.INSERTED ≤ m._state) →
      AbstractMathItem.stateWith rfd (some n) r m =
        AbstractMathItem.stateWith (fun _ x => x) (some n) r m) ∧
    ((AbstractMathItem.state (some n) r m).1.bbox =
      if n < STATE.TYPESET ∧ STATE.TYPESET ≤ m._state then [] else m.bbox) ∧
    ((AbstractMathItem.state (some n) r m).1.outputData =
      if n < STATE.TYPESET ∧ STATE.TYPESET ≤ m._state then [] else m.outputData) ∧
    ((AbstractMathItem.state (some n) r m).1.inputData =
      if n < STATE.COMPILED ∧ STATE.COMPILED ≤ m._state then [] else m.inputData) ∧
    (m._state ≤ n → (AbstractMathItem.state (some n) r m).1 = { m with _state := n }) ∧
    (n = m._state → AbstractMathItem.state (some n) r m = (m, m._state)) := by
  refine ⟨by simp [AbstractMathItem.stateWith], by simp [AbstractMathItem.stateWith], ?_, ?_, ?_, ?_, ?_, ?_, ?_⟩
  · intro h1 h2
    simp only [AbstractMathItem.stateWith, if_pos (And.intro h1 h2), ite_self]
  · intro h
    simp only [AbstractMathItem.stateWith, if_neg h, ite_self]
  · rw [state_some_closed]
  · rw [state_some_closed]
  · rw [state_some_closed]
  · intro h
    rw [state_some_closed]
    have h2 : ¬ (n < STATE.TYPESET ∧ STATE.TYPESET ≤ m._state) := by
      rw [STATE_TYPESET_val]; omega
    have h3 : ¬ (n < STATE.COMPILED ∧ STATE.COMPILED ≤ m._state) := by
      rw [STATE_COMPILED_val]; omega
    simp only [if_neg h2, if_neg h3]
  · intro h
    rw [state_some_closed]
    have h2 : ¬ (n < STATE.TYPESET ∧ STATE.TYPESET ≤ m._state) := by
      rw [STATE_TYPESET_val]; omega
    have h3 : ¬ (n < STATE.COMPILED ∧ STATE.COMPILED ≤ m._state) := by
      rw [STATE_COMPILED_val]; omega
    simp only [if_neg h2, if_neg h3]
    rw [h]

/-- Witness for C1 at a concrete rollback INSERTED → UNPROCESSED. -/
theorem state_guard_order_witness :
    (AbstractMathItem.stateWith (fun _ x => x) (some 0) true itemI =
      AbstractMathItem.stateWith (fun _ x => x) (some 0) true ((fun _ x => x) true itemI)) ∧
    ((AbstractMathItem.state (some 3) true itemU).1 = { itemU with _state := 3 }) ∧
    (AbstractMathItem.state (some 3) true itemI = (itemI, itemI._state)) :=
  ⟨(state_guard_order Unit Unit Unit (fun _ x => x) 0 true itemI).2.2.1 (by decide) (by decide),
   (state_guard_order Unit Unit Unit (fun _ x => x) 3 true itemU).2.2.2.2.2.2.2.1 (by decide),
   (state_guard_order Unit Unit Unit (fun _ x => x) 3 true itemI).2.2.2.2.2.2.2.2 (by decide)⟩

/-- Claim C2: a state write never clears `root` or `typesetRoot`; in
particular rolling from INSERTED to UNPROCESSED resets `bbox`,
`outputData` and `inputData` to empty containers while `root` and
`typesetRoot` keep exactly their previous values. -/
theorem state_rollback_preserves_roots (J N E : Type) (n : Nat) (r : Bool)
    (m : AbstractMathItem J N E) :
    ((AbstractMathItem.state (some n) r m).1.root = m.root) ∧
    ((AbstractMathItem.state (some n) r m).1.typesetRoot = m.typesetRoot) ∧
    (m._state = STATE.INSERTED →
      ((AbstractMathItem.state (some STATE.UNPROCESSED) r m).1.bbox = [] ∧
       (AbstractMathItem.state (some STATE.UNPROCESSED) r m).1.outputData = [] ∧
       (AbstractMathItem.state (some STATE.UNPROCESSED) r m).1.inputData = [] ∧
       (AbstractMathItem.state (some STATE.UNPROCESSED) r m).1.root = m.root ∧
       (AbstractMathItem.state (some STATE.UNPROCESSED) r m).1.typesetRoot = m.typesetRoot)) := by
  refine ⟨by rw [state_some_closed], by rw [state_some_closed], ?_⟩
  intro h
  rw [state_some_closed]
  simp [h, STATE_UNPROCESSED_val, STATE_COMPILED_val, STATE_TYPESET_val, STATE_INSERTED_val]

/-- Witness for C2: the INSERTED → UNPROCESSED rollback on a concrete
fully populated item. -/
theorem state_rollback_preserves_roots_witness :
    (AbstractMathItem.state (some STATE.UNPROCESSED) true itemI).1.bbox = [] ∧
    (AbstractMathItem.state (some STATE.UNPROCESSED) true itemI).1.root = itemI.root :=
  ⟨((state_rollback_preserves_roots Unit Unit Unit STATE.UNPROCESSED true itemI).2.2 (by decide)).1,
   ((state_rollback_preserves_roots Unit Unit Unit STATE.UNPROCESSED true itemI).2.2 (by decide)).2.2.2.1⟩

/-- Claim C7: after `removeFromDocument(restore)` returns, the item's
state is below INSERTED (spec-modelled handler implementation; the base
class only has an empty stub). -/
theorem removeFromDocument_state_below_inserted (J N E : Type) (r : Bool)
    (m : AbstractMathItem J N E) :
    (AbstractMathItem.removeFromDocumentSpec r m)._state < STATE.INSERTED := by
  unfold AbstractMathItem.removeFromDocumentSpec
  rw [state_some_closed]
  simp [STATE_TYPESET_val, STATE_INSERTED_val]

/-- Claim C8: `protoItem` copies its arguments into the corresponding
fields without validation, wraps the offsets as `start = {n: start}` and
`end = {n: end}`, and an omitted `display` argument (TS default `null`)
leaves the `display` field unset. -/
theorem protoItem_spec (o math close : String) (n s e : Int) (d : Option Bool) :
    (protoItem o math close n s e d).«open» = some o ∧
    (protoItem o math close n s e d).math = math ∧
    (protoItem o math close n s e d).close = some close ∧
    (protoItem o math close n s e d).n = some n ∧
    (protoItem o math close n s e d).display = d ∧
    (protoItem o math close n s e d).start = Location.mk none (some s) none none ∧
    (protoItem o math close n s e d).«end» = Location.mk none (some e) none none ∧
    (protoItem o math close n s e none).display = none :=
  ⟨rfl, rfl, rfl, rfl, rfl, rfl, rfl, rfl⟩

/-- Claim C9: a `state` call (read or write) leaves `math`, `inputJax`,
`display`, `start`, `end` and `metrics` unchanged; in particular rolling
back to UNPROCESSED keeps the metrics recorded by `setMetrics`. -/
theorem state_frame (J N E : Type) (s : Option Nat) (r : Bool)
    (m : AbstractMathItem J N E) :
    ((AbstractMathItem.state s r m).1.math = m.math) ∧
    ((AbstractMathItem.state s r m).1.inputJax = m.inputJax) ∧
    ((AbstractMathItem.state s r m).1.display = m.display) ∧
    ((AbstractMathItem.state s r m).1.start = m.start) ∧
    ((AbstractMathItem.state s r m).1.«end» = m.«end») ∧
    ((AbstractMathItem.state s r m).1.metrics = m.metrics) ∧
    (∀ em ex cw lw sc : Int,
      (AbstractMathItem.state (some STATE.UNPROCESSED) r
        (AbstractMathItem.setMetrics em ex cw lw sc m)).1.metrics =
        some (Metrics.mk em ex cw lw sc)) := by
  match s with
  | none =>
    refine ⟨rfl, rfl, rfl, rfl, rfl, rfl, ?_⟩
    intro em ex cw lw sc
    rw [state_some_closed]
    rfl
  | some st =>
    refine ⟨?_, ?_, ?_, ?_, ?_, ?_, ?_⟩ <;>
      first
        | (rw [state_some_closed])
        | (intro em ex cw lw sc; rw [state_some_closed]; rfl)

/-- The method `compile` is a no-op once the state is at or past COMPILED: the item
is unchanged and the parser is never consulted (the result does not
depend on `jc`). -/
theorem compile_noop_of_ge (jc : AbstractMathItem J N E → Except PE N)
    (d : D) (m : AbstractMathItem J N E) (h : STATE.COMPILED ≤ m._state) :
    AbstractMathItem.compile jc d m = (m, none) := by
  have h' : ¬ (m._state < STATE.COMPILED) := by
    rw [STATE_COMPILED_val] at h ⊢; omega
  simp [AbstractMathItem.compile, state_none_eq, h']

/-- The method `typeset` is a no-op once the state is at or past TYPESET: the item
is unchanged and the renderer is never consulted (the result does not
depend on `esc`/`tps`). -/
theorem typeset_noop_of_ge (esc tps : AbstractMathItem J N E → D → Except RE E)
    (d : D) (m : AbstractMathItem J N E) (h : STATE.TYPESET ≤ m._state) :
    AbstractMathItem.typeset esc tps d m = (m, none) := by
  have h' : ¬ (m._state < STATE.TYPESET) := by
    rw [STATE_TYPESET_val] at h ⊢; omega
  simp [AbstractMathItem.typeset, state_none_eq, h']

/-- When the parser throws, `compile` re-raises and leaves the item as it
was. -/
theorem compile_err_eq (jc : AbstractMathItem J N E → Except PE N)
    (d : D) (m : AbstractMathItem J N E) (e : PE)
    (h : m._state < STATE.COMPILED) (hj : jc m = Except.error e) :
    AbstractMathItem.compile jc d m = (m, some e) := by
  simp [AbstractMathItem.compile, state_none_eq, h, hj]

/-- When the parser succeeds below COMPILED, `compile` stores the tree in
`root` and advances the state to COMPILED, touching nothing else. -/
theorem compile_ok_eq (jc : AbstractMathItem J N E → Except PE N)
    (d : D) (m : AbstractMathItem J N E) (r : N)
    (h : m._state < STATE.COMPILED) (hj : jc m = Except.ok r) :
    AbstractMathItem.compile jc d m =
      ({ m with root := some r, _state := STATE.COMPILED }, none) := by
  have h2 : ¬ (STATE.COMPILED < STATE.TYPESET ∧ STATE.TYPESET ≤ m._state) := by
    rw [STATE_COMPILED_val] at h
    rw [STATE_COMPILED_val, STATE_TYPESET_val]
    omega
  have h3 : ¬ (STATE.COMPILED < STATE.COMPILED ∧ STATE.COMPILED ≤ m._state) := by
    simp
  simp [AbstractMathItem.compile, state_none_eq, h, hj, state_some_closed, h2, h3]

/-- When the selected renderer entry point succeeds below TYPESET,
`typeset` stores the result in `typesetRoot` and advances the state to
TYPESET, touching nothing else. -/
theorem typeset_ok_eq (esc tps : AbstractMathItem J N E → D → Except RE E)
    (d : D) (m : AbstractMathItem J N E) (v : E)
    (h : m._state < STATE.TYPESET)
    (hsel : (if m.display = none then esc m d else tps m d) = Except.ok v) :
    AbstractMathItem.typeset esc tps d m =
      ({ m with typesetRoot := some v, _state := STATE.TYPESET }, none) := by
  have h2 : ¬ (STATE.TYPESET < STATE.TYPESET ∧ STATE.TYPESET ≤ m._state) := by
    simp
  have h3 : ¬ (STATE.TYPESET < STATE.COMPILED ∧ STATE.COMPILED ≤ m._state) := by
    rw [STATE_TYPESET_val] at h
    rw [STATE_COMPILED_val, STATE_TYPESET_val]
    omega
  simp [AbstractMathItem.typeset, state_none_eq, h, hsel, state_some_closed, h2, h3]

/-- Claim C3: `compile` and `typeset` are idempotent: at or past
COMPILED (resp. TYPESET) they leave the item — in particular `root`
(resp. `typesetRoot`) and the state — unchanged and do not invoke the
parser (resp. renderer): the result is `(m, none)` for every `jc`
(resp. `esc`/`tps`).  Consequently two successive successful calls
return the same item, so the underlying parser/renderer call happens at
most once and the roots are identical. -/
theorem compile_typeset_idempotent (J N E D PE RE : Type)
    (jc : AbstractMathItem J N E → Except PE N)
    (esc tps : AbstractMathItem J N E → D → Except RE E) (d : D)
    (m : AbstractMathItem J N E) :
    (STATE.COMPILED ≤ m._state → AbstractMathItem.compile jc d m = (m, none)) ∧
    (STATE.TYPESET ≤ m._state → AbstractMathItem.typeset esc tps d m = (m, none)) ∧
    (∀ m1, AbstractMathItem.compile jc d m = (m1, none) →
      AbstractMathItem.compile jc d m1 = (m1, none)) ∧
    (∀ m1, AbstractMathItem.typeset esc tps d m = (m1, none) →
      AbstractMathItem.typeset esc tps d m1 = (m1, none)) := by
  refine ⟨fun h => compile_noop_of_ge jc d m h,
          fun h => typeset_noop_of_ge esc tps d m h, ?_, ?_⟩
  · intro m1 hm1
    by_cases h : m._state < STATE.COMPILED
    · cases hj : jc m with
      | error e =>
        rw [compile_err_eq jc d m e h hj] at hm1
        simp at hm1
      | ok rr =>
        rw [compile_ok_eq jc d m rr h hj] at hm1
        have hm1' : ({ m with root := some rr, _state := STATE.COMPILED } :
            AbstractMathItem J N E) = m1 := congrArg Prod.fst hm1
        apply compile_noop_of_ge
        rw [← hm1']
    · have hge : STATE.COMPILED ≤ m._state := Nat.le_of_not_lt h
      have hnoop := compile_noop_of_ge jc d m hge
      rw [hnoop] at hm1
      have hm1' : m = m1 := congrArg Prod.fst hm1
      rw [← hm1']
      exact hnoop
  · intro m1 hm1
    by_cases h : m._state < STATE.TYPESET
    · cases hsel : (if m.display = none then esc m d else tps m d) with
      | error e =>
        have : AbstractMathItem.typeset esc tps d m = (m, some e) := by
          simp [AbstractMathItem.typeset, state_none_eq, h, hsel]
        rw [this] at hm1
        simp at hm1
      | ok v =>
        rw [typeset_ok_eq esc tps d m v h hsel] at hm1
        have hm1' : ({ m with typesetRoot := some v, _state := STATE.TYPESET } :
            AbstractMathItem J N E) = m1 := congrArg Prod.fst hm1
        apply typeset_noop_of_ge
        rw [← hm1']
    · have hge : STATE.TYPESET ≤ m._state := Nat.le_of_not_lt h
      have hnoop := typeset_noop_of_ge esc tps d m hge
      rw [hnoop] at hm1
      have hm1' : m = m1 := congrArg Prod.fst hm1
      rw [← hm1']
      exact hnoop

/-- Witness for C3: a second `compile` and a second `typeset` on concrete
items are no-ops. -/
theorem compile_typeset_idempotent_witness :
    AbstractMathItem.compile (fun _ => (Except.ok () : Except String Unit)) () itemT = (itemT, none) ∧
    AbstractMathItem.typeset (fun _ _ => (Except.ok () : Except String Unit))
      (fun _ _ => Except.ok ()) () itemT = (itemT, none) :=
  ⟨(compile_typeset_idempotent Unit Unit Unit Unit String String
      (fun _ => Except.ok ()) (fun _ _ => Except.ok ()) (fun _ _ => Except.ok ())
      () itemT).1 (by decide),
   (compile_typeset_idempotent Unit Unit Unit Unit String String
      (fun _ => Except.ok ()) (fun _ _ => Except.ok ()) (fun _ _ => Except.ok ())
      () itemT).2.1 (by decide)⟩

/-- Claim C4: if the parser's compile routine fails on an UNPROCESSED
item, `compile` propagates the error unmodified, the state does not
advance, and `root` remains null. -/
theorem compile_error_propagates (J N E D PE : Type)
    (jc : AbstractMathItem J N E → Except PE N) (d : D)
    (m : AbstractMathItem J N E) (e : PE) :
    m._state = STATE.UNPROCESSED → jc m = Except.error e →
    AbstractMathItem.compile jc d m = (m, some e) ∧
    (AbstractMathItem.compile jc d m).1._state = STATE.UNPROCESSED ∧
    (m.root = none → (AbstractMathItem.compile jc d m).1.root = none) := by
  intro h1 h2
  have hlt : m._state < STATE.COMPILED := by
    rw [STATE_COMPILED_val, h1, STATE_UNPROCESSED_val]; omega
  have heq := compile_err_eq jc d m e hlt h2
  refine ⟨heq, ?_, ?_⟩
  · rw [heq, h1]
  · intro hr
    rw [heq]
    exact hr

/-- Witness for C4: a concrete failing parser on a fresh item. -/
theorem compile_error_propagates_witness :
    AbstractMathItem.compile (fun _ => (Except.error "boom" : Except String Unit)) () itemU
      = (itemU, some "boom") :=
  (compile_error_propagates Unit Unit Unit Unit String
    (fun _ => Except.error "boom") () itemU "boom" (by decide) rfl).1

/-- Claim C5: below TYPESET, `typeset` invokes the renderer's escaped
entry point when `display` is unset/null and the normal typeset entry
point otherwise, stores the result in `typesetRoot`, and advances the
state to TYPESET. -/
theorem typeset_renders (J N E D RE : Type)
    (esc tps : AbstractMathItem J N E → D → Except RE E) (d : D)
    (m : AbstractMathItem J N E) (v : E) :
    m._state < STATE.TYPESET →
    ((m.display = none → esc m d = Except.ok v →
       AbstractMathItem.typeset esc tps d m =
         ({ m with typesetRoot := some v, _state := STATE.TYPESET }, none)) ∧
     (m.display ≠ none → tps m d = Except.ok v →
       AbstractMathItem.typeset esc tps d m =
         ({ m with typesetRoot := some v, _state := STATE.TYPESET }, none))) := by
  intro h
  constructor
  · intro hd hr
    apply typeset_ok_eq esc tps d m v h
    rw [if_pos hd]
    exact hr
  · intro hd hr
    apply typeset_ok_eq esc tps d m v h
    rw [if_neg hd]
    exact hr

/-- Witness for C5: a fresh item with unresolved display mode goes
through the escaped entry point. -/
theorem typeset_renders_witness :
    AbstractMathItem.typeset (fun _ _ => (Except.ok () : Except String Unit))
      (fun _ _ => Except.error "unused") () itemU =
      ({ itemU with typesetRoot := some (), _state := STATE.TYPESET }, none) :=
  ((typeset_renders Unit Unit Unit Unit String
      (fun _ _ => Except.ok ()) (fun _ _ => Except.error "unused") () itemU ()
      (by decide)).1) rfl rfl

/-- Claim C6: `updateDocument` (spec-modelled handler implementation; the
base class only has an empty stub) advances the state to INSERTED when
called at or past TYPESET, and fails with `InvalidStateError` when called
below TYPESET. -/
theorem updateDocument_contract (J N E D : Type) (d : D)
    (m : AbstractMathItem J N E) :
    (STATE.TYPESET ≤ m._state →
      AbstractMathItem.updateDocumentSpec d m =
        Except.ok { m with _state := STATE.INSERTED }) ∧
    (m._state < STATE.TYPESET →
      AbstractMathItem.updateDocumentSpec d m =
        Except.error InvalidStateError.invalidState) := by
  constructor
  · intro h
    unfold AbstractMathItem.updateDocumentSpec
    rw [if_pos h, state_some_closed]
    have h2 : ¬ (STATE.INSERTED < STATE.TYPESET ∧ STATE.TYPESET ≤ m._state) := by
      rw [STATE_INSERTED_val, STATE_TYPESET_val]; omega
    have h3 : ¬ (STATE.INSERTED < STATE.COMPILED ∧ STATE.COMPILED ≤ m._state) := by
      rw [STATE_INSERTED_val, STATE_COMPILED_val]; omega
    simp only [if_neg h2, if_neg h3]
  · intro h
    unfold AbstractMathItem.updateDocumentSpec
    rw [if_neg (by rw [STATE_TYPESET_val] at h ⊢; omega)]

/-- Witness for C6: a typeset item advances to INSERTED, a fresh item is
rejected. -/
theorem updateDocument_contract_witness :
    AbstractMathItem.updateDocumentSpec () itemT =
      Except.ok { itemT with _state := STATE.INSERTED } ∧
    AbstractMathItem.updateDocumentSpec () itemU =
      Except.error InvalidStateError.invalidState :=
  ⟨(updateDocument_contract Unit Unit Unit Unit () itemT).1 (by decide),
   (updateDocument_contract Unit Unit Unit Unit () itemU).2 (by decide)⟩

/-- Claim C10: the `TexError` constructor leaves `id` unset and sets
`message` to the empty string when the input has fewer than two elements;
otherwise it sets `id` to `input[0]` and `message` to
`processString(input[1], input.slice(2))`. -/
theorem texError_constructor (input : List String) :
    (input.length < 2 → TexError.make input = TexError.mk none "") ∧
    (2 ≤ input.length →
      (TexError.make input).id = some (input.getD 0 "") ∧
      (TexError.make input).message =
        TexError.processString (input.getD 1 "") (input.drop 2)) := by
  match input with
  | [] => exact ⟨fun _ => rfl, by intro h; simp at h⟩
  | [a] => exact ⟨fun _ => rfl, by intro h; simp at h⟩
  | a :: b :: rest =>
    refine ⟨?_, fun _ => ⟨rfl, rfl⟩⟩
    intro h
    exfalso
    simp [List.length_cons] at h
    omega

/-- Witness for C10: a one-element input and a two-element input. -/
theorem texError_constructor_witness :
    TexError.make ["x"] = TexError.mk none "" ∧
    (TexError.make ["id", "msg"]).id = some "id" :=
  ⟨(texError_constructor ["x"]).1 (by decide),
   ((texError_constructor ["id", "msg"]).2 (by decide)).1⟩
